import Mathlib

/-!
Shallow embedding of the `isbn` Go package (`isbn.go`) and proofs about it.

Modelling conventions:
* Go strings are modelled as `List Char`; Go iterates code points via
  `strings.Map`, and the byte length `len(s)` of a well-formed string is the
  sum of the UTF-8 sizes of its characters (`utf8Len`).
* Go `int32` digit values are modelled as `Int`; no sum computed by this
  package on sanitizer outputs (digit values 0–10, at most 13 of them) can
  leave the `int32` range, so wrap-around is unreachable.
* Go's truncated remainder `%` is `Int.tmod`.
* Fallible functions return `Except Err _`, with one `Err` constructor per
  distinct `fmt.Errorf` in the source.
-/

namespace Isbn

/-- Error values, one per distinct `fmt.Errorf` call in `isbn.go`. -/
inductive Err : Type
  | tooLong
  | invalidLength (n : Nat)
  | invalidChecksum10
  | invalidGs1
  | invalidChecksum13
  | gs1Not978
  deriving DecidableEq

/-- The `parsed` struct of `isbn.go`: an ordered body of digit values. -/
structure Parsed : Type where
  body : List Int
  deriving DecidableEq

instance {ε α : Type} [DecidableEq ε] [DecidableEq α] : DecidableEq (Except ε α)
  | .error a, .error b =>
    if h : a = b then .isTrue (by rw [h])
    else .isFalse (by intro hc; injection hc; exact h (by assumption))
  | .error _, .ok _ => .isFalse (by intro hc; exact Except.noConfusion hc)
  | .ok _, .error _ => .isFalse (by intro hc; exact Except.noConfusion hc)
  | .ok a, .ok b =>
    if h : a = b then .isTrue (by rw [h])
    else .isFalse (by intro hc; injection hc; exact h (by assumption))

/-- The characters of the constant `urnPrefix = "urn:isbn:"`. -/
def urnChars : List Char := "urn:isbn:".data

/-- UTF-8 byte count of a character sequence; this is Go's `len(s)` for the
well-formed string holding those characters. -/
def utf8Len (s : List Char) : Nat := (s.map Char.utf8Size).sum

/-- `sanitizeRune`: characters `'0'`–`'9'` (code points `0x30`–`0x39`) map to
their digit value, `'X'`/`'x'` maps to 10, and every other character maps to
-1 in Go, which `strings.Map` drops — modelled as `none`. -/
def sanitizeRune (c : Char) : Option Int :=
  if 0x30 ≤ c.toNat ∧ c.toNat ≤ 0x39 then some ((c.toNat : Int) - 0x30)
  else if c = 'X' ∨ c = 'x' then some 10
  else none

/-- `strings.Map(sanitizeRune, s)`. -/
def sanitize (s : List Char) : List Int := s.filterMap sanitizeRune

/-- `convertDigitsToString`: shift every digit value up by `0x30`. -/
def convertDigitsToString (l : List Int) : List Char :=
  l.map (fun v => Char.ofNat (v + 0x30).toNat)

/-- `strings.TrimPrefix(s, urnPrefix)`: drop the 9 characters of
`"urn:isbn:"` when they are a prefix of the input. -/
def stripUrn (s : List Char) : List Char :=
  if urnChars.isPrefixOf s then s.drop 9 else s

/-- The accumulation loop of `check13`, carrying the running index: an entry
at an even index contributes itself, at an odd index three times itself. -/
def wsum13 : Nat → List Int → Int
  | _, [] => 0
  | n, x :: xs => (if n % 2 = 0 then x else x * 3) + wsum13 (n + 1) xs

/-- `check13`: a 13-entry input is truncated to its first 12 entries, then
the weighted sum is folded into `(10 - sum % 10) % 10`. -/
def check13 (l : List Int) : Int :=
  (10 - (wsum13 0 (if l.length = 13 then l.take 12 else l)).tmod 10).tmod 10

/-- The accumulation loop of `check10`: the entry at index `i` is weighted by
`10 - i`. -/
def wsum10 : Nat → List Int → Int
  | _, [] => 0
  | n, x :: xs => x * (10 - (n : Int)) + wsum10 (n + 1) xs

/-- `check10`: a 10-entry input is truncated to its first 9 entries, then the
weighted sum is folded into `(11 - sum % 11) % 11`. -/
def check10 (l : List Int) : Int :=
  (11 - (wsum10 0 (if l.length = 10 then l.take 9 else l)).tmod 11).tmod 11

/-- `parse10`: reject unless the supplied last entry equals `check10` of the
sequence, then prepend the GS1 prefix 9, 7, 8. -/
def parse10 (l : List Int) : Except Err Parsed :=
  if l.getLast? ≠ some (check10 l) then .error .invalidChecksum10
  else .ok ⟨[9, 7, 8] ++ l⟩

/-- `parseSbn`: prepend one zero digit and delegate to `parse10`. -/
def parseSbn (l : List Int) : Except Err Parsed := parse10 (0 :: l)

/-- `parse13`: reject unless the first three entries are 9,7,8 or 9,7,9, then
reject unless the supplied last entry equals `check13` of the sequence. -/
def parse13 (l : List Int) : Except Err Parsed :=
  if l.take 3 ≠ [9, 7, 8] ∧ l.take 3 ≠ [9, 7, 9] then .error .invalidGs1
  else if l.getLast? ≠ some (check13 l) then .error .invalidChecksum13
  else .ok ⟨l⟩

/-- The `switch len(runes)` block of `parse`. -/
def dispatch (r : List Int) : Except Err Parsed :=
  if r.length = 9 then parseSbn r
  else if r.length = 10 then parse10 r
  else if r.length = 13 then parse13 r
  else .error (.invalidLength r.length)

/-- `parse`: strip the URN prefix, enforce the 17-byte ceiling
(`len(s) > 13+4` in Go is a byte-length test), sanitize, dispatch. -/
def parse (s : List Char) : Except Err Parsed :=
  if 17 < utf8Len (stripUrn s) then .error .tooLong
  else dispatch (sanitize (stripUrn s))

/-- `isbn13` formatter: the digit characters of the whole body followed by
`rune(check13(body))` appended raw by `%c` (not shifted by `0x30`). -/
def isbn13 (p : Parsed) : List Char :=
  convertDigitsToString p.body ++ [Char.ofNat (check13 p.body).toNat]

/-- `isbn10` formatter: the digit characters of the body after the 3-entry
GS1 prefix, followed by `rune(check13(body))` appended raw by `%c`. -/
def isbn10 (p : Parsed) : List Char :=
  convertDigitsToString (p.body.drop 3) ++ [Char.ofNat (check13 p.body).toNat]

/-- Public `ISBN13` (the spec's `Parse` / `ToISBN13`). -/
def ISBN13 (s : List Char) : Except Err (List Char) :=
  (parse s).map isbn13

/-- Public `ISBN10` (the spec's `ToISBN10`): a domain error unless the GS1
prefix of the parsed body is 9, 7, 8. -/
def ISBN10 (s : List Char) : Except Err (List Char) :=
  match parse s with
  | .error e => .error e
  | .ok p =>
    if p.body.take 3 ≠ [9, 7, 8] then .error .gs1Not978
    else .ok (isbn10 p)

/-- The ISBN-13 check-digit formula as the spec states it: a weight of 1 at
each even 0-indexed position and 3 at each odd position, summed over the
first 12 entries only. -/
def specCheck13 (l : List Int) : Int :=
  (10 - (∑ i ∈ Finset.range 12, (if i % 2 = 0 then 1 else 3) * l.getD i 0).tmod 10).tmod 10

/-- The ISBN-10 check-digit formula as the spec states it: the entry at
0-indexed position `i` is weighted by `10 - i`, summed over the first 9
entries only. -/
def specCheck10 (l : List Int) : Int :=
  (11 - (∑ i ∈ Finset.range 9, (10 - (i : Int)) * l.getD i 0).tmod 11).tmod 11

/-- Hyphen removal, for the hyphen-insensitivity claim. -/
def deHyphen (s : List Char) : List Char := s.filter (fun c => c ≠ '-')

theorem wsum13_eq_sum (l : List Int) :
    ∀ n : Nat, wsum13 n l =
      ∑ i ∈ Finset.range l.length, (if (n + i) % 2 = 0 then 1 else 3) * l.getD i 0 := by
  induction l with
  | nil => intro n; simp [wsum13]
  | cons x xs ih =>
    intro n
    rw [List.length_cons, Finset.sum_range_succ']
    simp only [List.getD_cons_succ, List.getD_cons_zero, Nat.add_zero]
    rw [wsum13, ih (n + 1), add_comm]
    congr 1
    · apply Finset.sum_congr rfl
      intro i _
      have h : n + 1 + i = n + (i + 1) := by omega
      rw [h]
    · split_ifs
      · rw [one_mul]
      · rw [mul_comm]

theorem wsum10_eq_sum (l : List Int) :
    ∀ n : Nat, wsum10 n l =
      ∑ i ∈ Finset.range l.length, (10 - ((n : Int) + i)) * l.getD i 0 := by
  induction l with
  | nil => intro n; simp [wsum10]
  | cons x xs ih =>
    intro n
    rw [List.length_cons, Finset.sum_range_succ']
    simp only [List.getD_cons_succ, List.getD_cons_zero, Nat.cast_zero, add_zero]
    rw [wsum10, ih (n + 1), add_comm]
    congr 1
    · apply Finset.sum_congr rfl
      intro i _
      have h : ((n : Int) + 1) + i = n + ((i : Nat) + 1 : Nat) := by push_cast; ring
      rw [Nat.cast_add, Nat.cast_one, h]
    · rw [mul_comm]

theorem getD_take_of_lt {l : List Int} {n i : Nat} (h : i < n) :
    (l.take n).getD i 0 = l.getD i 0 := by
  rw [List.getD_eq_getElem?_getD, List.getD_eq_getElem?_getD, List.getElem?_take, if_pos h]

/-- C3: on any integer sequence of length 12 or 13, `check13` uses only the
first 12 entries, weighting even 0-indexed positions by 1 and odd positions
by 3, and returns `(10 - sum % 10) % 10`; in particular
`check13 [9,7,8,0,3,0,6,4,0,6,1,5] = 7`. -/
theorem claim_c3_check13_spec :
    (∀ l : List Int, l.length = 12 ∨ l.length = 13 → check13 l = specCheck13 l) ∧
    check13 [9, 7, 8, 0, 3, 0, 6, 4, 0, 6, 1, 5] = 7 := by
  constructor
  · intro l hl
    rcases hl with h | h
    · rw [check13, if_neg (by omega), wsum13_eq_sum l 0, specCheck13, h]
      simp only [Nat.zero_add]
    · rw [check13, if_pos h, wsum13_eq_sum (l.take 12) 0, specCheck13]
      have hlen : (l.take 12).length = 12 := by simp [List.length_take, h]
      have hs : ∑ i ∈ Finset.range 12, (if (0 + i) % 2 = 0 then 1 else 3) * (l.take 12).getD i 0
          = ∑ i ∈ Finset.range 12, (if i % 2 = 0 then (1 : Int) else 3) * l.getD i 0 := by
        apply Finset.sum_congr rfl
        intro i hi
        rw [Nat.zero_add, getD_take_of_lt (Finset.mem_range.mp hi)]
      rw [hlen, hs]
  · decide

/-- Witness for C3: the theorem applied at a concrete length-13 input. -/
theorem claim_c3_check13_spec_witness :
    check13 [9, 7, 8, 0, 3, 0, 6, 4, 0, 6, 1, 5, 7] =
      specCheck13 [9, 7, 8, 0, 3, 0, 6, 4, 0, 6, 1, 5, 7] :=
  claim_c3_check13_spec.1 _ (Or.inr (by decide))

/-- C4: on any integer sequence of length 9 or 10, `check10` uses only the
first 9 entries, weighting position `i` by `10 - i`, and returns
`(11 - sum % 11) % 11`; in particular `check10 [0,3,0,6,4,0,6,1,5] = 2`. -/
theorem claim_c4_check10_spec :
    (∀ l : List Int, l.length = 9 ∨ l.length = 10 → check10 l = specCheck10 l) ∧
    check10 [0, 3, 0, 6, 4, 0, 6, 1, 5] = 2 := by
  constructor
  · intro l hl
    rcases hl with h | h
    · rw [check10, if_neg (by omega), wsum10_eq_sum l 0, specCheck10, h]
      simp only [Nat.cast_zero, Int.zero_add, zero_add]
    · rw [check10, if_pos h, wsum10_eq_sum (l.take 9) 0, specCheck10]
      have hlen : (l.take 9).length = 9 := by simp [List.length_take, h]
      have hs : ∑ i ∈ Finset.range 9, (10 - ((0 : Int) + i)) * (l.take 9).getD i 0
          = ∑ i ∈ Finset.range 9, (10 - (i : Int)) * l.getD i 0 := by
        apply Finset.sum_congr rfl
        intro i hi
        rw [zero_add, getD_take_of_lt (Finset.mem_range.mp hi)]
      rw [hlen]
      simp only [Nat.cast_zero]
      rw [hs]
  · decide

/-- Witness for C4: the theorem applied at a concrete length-10 input. -/
theorem claim_c4_check10_spec_witness :
    check10 [0, 3, 0, 6, 4, 0, 6, 1, 5, 2] = specCheck10 [0, 3, 0, 6, 4, 0, 6, 1, 5, 2] :=
  claim_c4_check10_spec.1 _ (Or.inr (by decide))

theorem parse_ok_cases (s : List Char) (p : Parsed) (h : parse s = .ok p) :
    ∃ r, sanitize (stripUrn s) = r ∧
      ((r.length = 9 ∧ p.body = [9, 7, 8] ++ 0 :: r ∧
          (0 :: r).getLast? = some (check10 (0 :: r))) ∨
       (r.length = 10 ∧ p.body = [9, 7, 8] ++ r ∧ r.getLast? = some (check10 r)) ∨
       (r.length = 13 ∧ p.body = r ∧ r.getLast? = some (check13 r) ∧
          (r.take 3 = [9, 7, 8] ∨ r.take 3 = [9, 7, 9]))) := by
  rw [parse] at h
  split_ifs at h
  refine ⟨sanitize (stripUrn s), rfl, ?_⟩
  rw [dispatch] at h
  split_ifs at h with h9 h10 h13
  · rw [parseSbn, parse10] at h
    split_ifs at h with hc
    injection h with h'
    exact Or.inl ⟨h9, h'.symm ▸ rfl, not_ne_iff.mp hc⟩
  · rw [parse10] at h
    split_ifs at h with hc
    injection h with h'
    exact Or.inr (Or.inl ⟨h10, h'.symm ▸ rfl, not_ne_iff.mp hc⟩)
  · rw [parse13] at h
    split_ifs at h with hpre hc
    injection h with h'
    refine Or.inr (Or.inr ⟨h13, h'.symm ▸ rfl, not_ne_iff.mp hc, ?_⟩)
    rcases not_and_or.mp hpre with h1 | h1
    · exact Or.inl (not_ne_iff.mp h1)
    · exact Or.inr (not_ne_iff.mp h1)

theorem check13_truncate {l : List Int} (h : l.length = 13) :
    check13 l = check13 (l.take 12) := by
  have h12 : (l.take 12).length = 12 := by simp [List.length_take, h]
  rw [check13, check13, if_pos h, if_neg (by omega)]

theorem sanitize_mem_bounds {cs : List Char} {x : Int} (hx : x ∈ sanitize cs) :
    0 ≤ x ∧ x ≤ 10 := by
  rw [sanitize, List.mem_filterMap] at hx
  obtain ⟨c, _, hc⟩ := hx
  rw [sanitizeRune] at hc
  split_ifs at hc with h1 h2
  · injection hc with hc'
    omega
  · injection hc with hc'
    omega

/-- C9: every successfully parsed identifier has exactly 13 entries and its
first three entries are 9,7,8 or 9,7,9. -/
theorem claim_c9_length_and_gs1 (s : List Char) (p : Parsed) (h : parse s = .ok p) :
    p.body.length = 13 ∧ (p.body.take 3 = [9, 7, 8] ∨ p.body.take 3 = [9, 7, 9]) := by
  obtain ⟨r, _, hcases⟩ := parse_ok_cases s p h
  rcases hcases with ⟨h9, hb, _⟩ | ⟨h10, hb, _⟩ | ⟨h13, hb, _, hpre⟩
  · rw [hb]
    refine ⟨?_, Or.inl rfl⟩
    simp [List.length_append, h9]
  · rw [hb]
    refine ⟨?_, Or.inl rfl⟩
    simp [List.length_append, h10]
  · rw [hb]
    exact ⟨h13, hpre⟩

/-- Witness for C9: the theorem applied at the parse of `"9781250289551"`. -/
theorem claim_c9_length_and_gs1_witness :
    (⟨[9, 7, 8, 1, 2, 5, 0, 2, 8, 9, 5, 5, 1]⟩ : Parsed).body.length = 13 ∧
      ((⟨[9, 7, 8, 1, 2, 5, 0, 2, 8, 9, 5, 5, 1]⟩ : Parsed).body.take 3 = [9, 7, 8] ∨
        (⟨[9, 7, 8, 1, 2, 5, 0, 2, 8, 9, 5, 5, 1]⟩ : Parsed).body.take 3 = [9, 7, 9]) :=
  claim_c9_length_and_gs1 "9781250289551".data ⟨[9, 7, 8, 1, 2, 5, 0, 2, 8, 9, 5, 5, 1]⟩
    (by decide)

/-- C6 as it stands is false: `"0672323567"` parses (10-digit path), its
body's final entry is the base-11 ISBN-10 check digit 7, while `check13` of
the first twelve entries is 0. -/
theorem claim_c6_counterexample :
    parse "0672323567".data = .ok ⟨[9, 7, 8, 0, 6, 7, 2, 3, 2, 3, 5, 6, 7]⟩ ∧
    check13 (([9, 7, 8, 0, 6, 7, 2, 3, 2, 3, 5, 6, 7] : List Int).take 12) = 0 ∧
    ([9, 7, 8, 0, 6, 7, 2, 3, 2, 3, 5, 6, 7] : List Int).getLast? = some 7 := by
  refine ⟨by decide, by decide, by decide⟩

/-- C6 amended: after a successful parse, the final entry equals `check13` of
the first twelve entries when the sanitized input had 13 digits; when it had
9 or 10 digits, the final entry is instead the validated base-11 ISBN-10
check digit, `check10` of the entries after the GS1 prefix. -/
theorem claim_c6_amended_last_entry (s : List Char) (p : Parsed) (h : parse s = .ok p) :
    ((sanitize (stripUrn s)).length = 13 →
      p.body.getLast? = some (check13 (p.body.take 12))) ∧
    ((sanitize (stripUrn s)).length = 9 ∨ (sanitize (stripUrn s)).length = 10 →
      p.body.getLast? = some (check10 (p.body.drop 3))) := by
  obtain ⟨r, hr, hcases⟩ := parse_ok_cases s p h
  rw [hr]
  rcases hcases with ⟨h9, hb, hlast⟩ | ⟨h10, hb, hlast⟩ | ⟨h13, hb, hlast, _⟩
  · constructor
    · intro hx
      omega
    · intro _
      rw [hb]
      have hd : (([9, 7, 8] ++ 0 :: r : List Int)).drop 3 = 0 :: r := rfl
      rw [hd, List.getLast?_append_cons]
      exact hlast
  · constructor
    · intro hx
      omega
    · intro _
      rw [hb]
      have hd : (([9, 7, 8] ++ r : List Int)).drop 3 = r := rfl
      have hne : r ≠ [] := by
        intro hn
        rw [hn] at h10
        simp at h10
      rw [hd, List.getLast?_append_of_ne_nil _ hne]
      exact hlast
  · constructor
    · intro _
      rw [hb, ← check13_truncate h13]
      exact hlast
    · intro hx
      omega

/-- Witness for the amended C6: the theorem applied at the parse of
`"9781250289551"`, a 13-digit input. -/
theorem claim_c6_amended_last_entry_witness :
    (⟨[9, 7, 8, 1, 2, 5, 0, 2, 8, 9, 5, 5, 1]⟩ : Parsed).body.getLast? =
      some (check13 ((⟨[9, 7, 8, 1, 2, 5, 0, 2, 8, 9, 5, 5, 1]⟩ : Parsed).body.take 12)) :=
  (claim_c6_amended_last_entry "9781250289551".data ⟨[9, 7, 8, 1, 2, 5, 0, 2, 8, 9, 5, 5, 1]⟩
    (by decide)).1 (by decide)

/-- C10 as it stands is false: `"978X593492918"` parses via the 13-digit
path, and the resulting body carries the value 10 (from the mid-string `X`)
at index 3, which is not the final position. -/
theorem claim_c10_counterexample :
    parse "978X593492918".data = .ok ⟨[9, 7, 8, 10, 5, 9, 3, 4, 9, 2, 9, 1, 8]⟩ ∧
    (sanitize (stripUrn "978X593492918".data)).length = 13 ∧
    ([9, 7, 8, 10, 5, 9, 3, 4, 9, 2, 9, 1, 8] : List Int).getD 3 0 = 10 := by
  refine ⟨by decide, by decide, by decide⟩

/-- C10 amended: every entry of a successfully parsed body lies in the range
0–10 (the positional restriction on the value 10 does not hold: an `X`
anywhere in the input sanitizes to 10 and can survive validation). -/
theorem claim_c10_amended_range (s : List Char) (p : Parsed) (h : parse s = .ok p) :
    ∀ x ∈ p.body, 0 ≤ x ∧ x ≤ 10 := by
  obtain ⟨r, hr, hcases⟩ := parse_ok_cases s p h
  have hran : ∀ x ∈ r, 0 ≤ x ∧ x ≤ 10 := by
    intro x hx
    exact sanitize_mem_bounds (by rw [hr]; exact hx)
  rcases hcases with ⟨_, hb, _⟩ | ⟨_, hb, _⟩ | ⟨_, hb, _, _⟩ <;> rw [hb] <;> intro x hx
  · rcases List.mem_append.mp hx with hx | hx
    · simp at hx
      rcases hx with rfl | rfl | rfl <;> exact ⟨by norm_num, by norm_num⟩
    · rcases List.mem_cons.mp hx with rfl | hx
      · exact ⟨le_refl 0, by norm_num⟩
      · exact hran x hx
  · rcases List.mem_append.mp hx with hx | hx
    · simp at hx
      rcases hx with rfl | rfl | rfl <;> exact ⟨by norm_num, by norm_num⟩
    · exact hran x hx
  · exact hran x hx

/-- Witness for the amended C10: the theorem applied at the parse of
`"0672323567"` and the entry 7 of its body. -/
theorem claim_c10_amended_range_witness : (0 : Int) ≤ 7 ∧ (7 : Int) ≤ 10 :=
  claim_c10_amended_range "0672323567".data ⟨[9, 7, 8, 0, 6, 7, 2, 3, 2, 3, 5, 6, 7]⟩
    (by decide) 7 (by decide)

/-- C5 as it stands is false on non-ASCII input: the ceiling is 17 UTF-8
bytes, not 17 characters. `"030640615ééééé"` has 14 characters (9 of them
digits) but 19 bytes, so `parse` reports the length error although the claim
prescribes the SBN dispatch (whose outcome here would be a checksum error). -/
theorem claim_c5_counterexample :
    parse "030640615ééééé".data = .error .tooLong ∧
    (stripUrn "030640615ééééé".data).length = 14 ∧
    (sanitize (stripUrn "030640615ééééé".data)).length = 9 ∧
    parseSbn (sanitize (stripUrn "030640615ééééé".data)) = .error .invalidChecksum10 := by
  refine ⟨by decide, by decide, by decide, by decide⟩

/-- C5 amended: with the ceiling measured in UTF-8 bytes (Go's `len`), the
dispatch contract holds: beyond 17 bytes after URN stripping the parse fails
with the length error; otherwise sanitized count 9 prepends a zero digit and
runs the 10-digit validator, count 10 takes the ISBN-10 path, count 13 the
ISBN-13 path, and any other count fails reporting the invalid length. -/
theorem claim_c5_amended_dispatch (s : List Char) :
    (17 < utf8Len (stripUrn s) → parse s = .error .tooLong) ∧
    (utf8Len (stripUrn s) ≤ 17 →
      ((sanitize (stripUrn s)).length = 9 →
        parse s = parse10 (0 :: sanitize (stripUrn s))) ∧
      ((sanitize (stripUrn s)).length = 10 → parse s = parse10 (sanitize (stripUrn s))) ∧
      ((sanitize (stripUrn s)).length = 13 → parse s = parse13 (sanitize (stripUrn s))) ∧
      ((sanitize (stripUrn s)).length ≠ 9 → (sanitize (stripUrn s)).length ≠ 10 →
        (sanitize (stripUrn s)).length ≠ 13 →
        parse s = .error (.invalidLength (sanitize (stripUrn s)).length))) := by
  constructor
  · intro h
    rw [parse, if_pos h]
  · intro h
    rw [parse, if_neg (by omega)]
    refine ⟨?_, ?_, ?_, ?_⟩
    · intro h9
      rw [dispatch, if_pos h9, parseSbn]
    · intro h10
      rw [dispatch, if_neg (by omega), if_pos h10]
    · intro h13
      rw [dispatch, if_neg (by omega), if_neg (by omega), if_pos h13]
    · intro h9 h10 h13
      rw [dispatch, if_neg h9, if_neg h10, if_neg h13]

/-- Witness for the amended C5: the theorem applied at `"0672323567"`,
exercising the 10-digit branch. -/
theorem claim_c5_amended_dispatch_witness :
    parse "0672323567".data = parse10 (sanitize (stripUrn "0672323567".data)) :=
  ((claim_c5_amended_dispatch "0672323567".data).2 (by decide)).2.1 (by decide)

theorem sanitize_stripUrn (s : List Char) : sanitize (stripUrn s) = sanitize s := by
  rw [stripUrn]
  split_ifs with h
  · obtain ⟨t, ht⟩ := List.isPrefixOf_iff_prefix.mp h
    rw [← ht]
    have hd : (urnChars ++ t).drop 9 = t := by
      have h9 : urnChars.length = 9 := by decide
      rw [← h9, List.drop_left]
    rw [hd, sanitize, sanitize, List.filterMap_append]
    have hurn : urnChars.filterMap sanitizeRune = [] := by decide
    rw [hurn, List.nil_append]
  · rfl

theorem sanitize_deHyphen (s : List Char) : sanitize (deHyphen s) = sanitize s := by
  induction s with
  | nil => rfl
  | cons c cs ih =>
    simp only [deHyphen, sanitize, List.filter_cons] at ih ⊢
    by_cases h : c = '-'
    · subst h
      rw [if_neg (by decide), List.filterMap_cons]
      have hn : sanitizeRune '-' = none := by decide
      rw [hn]
      exact ih
    · rw [if_pos (by simp [h]), List.filterMap_cons, List.filterMap_cons]
      cases hc : sanitizeRune c
      · exact ih
      · rw [ih]

/-- C8 as it stands is false: `"978-1-64937-404-2"` is a valid identifier,
yet inserting one more hyphen pushes the raw text past the 17-byte ceiling
and turns a successful parse into the length error. -/
theorem claim_c8_counterexample :
    parse "978-1-64937-404-2".data = .ok ⟨[9, 7, 8, 1, 6, 4, 9, 3, 7, 4, 0, 4, 2]⟩ ∧
    deHyphen "978-1-64937-404-2-".data = deHyphen "978-1-64937-404-2".data ∧
    parse "978-1-64937-404-2-".data = .error .tooLong := by
  refine ⟨by decide, by decide, by decide⟩

/-- C8 amended: two inputs that agree up to hyphen placement parse to the
same outcome, provided both stay within the 17-byte ceiling after URN
stripping. -/
theorem claim_c8_amended_hyphens (s t : List Char) (hst : deHyphen s = deHyphen t)
    (hs : utf8Len (stripUrn s) ≤ 17) (ht : utf8Len (stripUrn t) ≤ 17) :
    parse s = parse t := by
  rw [parse, parse, if_neg (by omega), if_neg (by omega), sanitize_stripUrn,
    sanitize_stripUrn, ← sanitize_deHyphen s, ← sanitize_deHyphen t, hst]

/-- Witness for the amended C8: the theorem applied to the hyphenated and
bare spellings of the same ISBN-10. -/
theorem claim_c8_amended_hyphens_witness :
    parse "1-316-87371-4".data = parse "1316873714".data :=
  claim_c8_amended_hyphens "1-316-87371-4".data "1316873714".data (by decide) (by decide)
    (by decide)

/-- C1 fails on the code: for the valid ISBN-10 `"059610183X"` (prefix 978,
so no domain error), `ISBN10` renders the digit value 10 as `':'` (code
point `0x3A`) instead of `'X'`, and appends `check13` of the body — the
base-10 digit 1 — as a raw unshifted rune, although the base-11 checksum of
the body after the prefix is 10 and the claim prescribes rendering it as
`'X'`. -/
theorem claim_c1_isbn10_divergence :
    ISBN10 "059610183X".data = .ok ("059610183:".data ++ [Char.ofNat 1]) ∧
    check10 (([9, 7, 8, 0, 5, 9, 6, 1, 0, 1, 8, 3, 10] : List Int).drop 3) = 10 ∧
    'X' ∉ "059610183:".data ++ [Char.ofNat 1] := by
  refine ⟨by decide, by decide, by decide⟩

/-- C2 fails on the code: `ISBN13` of `"0672323567"` yields the 13 digit
characters of the stored body (whose last character is the stored base-11
check digit `'7'`) followed by `check13` of the body appended as the raw
rune `U+0000` — a 14-character string, not 13 decimal digits ending in the
recomputed check digit. -/
theorem claim_c2_isbn13_divergence :
    ISBN13 "0672323567".data = .ok ("9780672323567".data ++ [Char.ofNat 0]) ∧
    ("9780672323567".data ++ [Char.ofNat 0]).length = 14 := by
  refine ⟨by decide, by decide⟩

/-- C7 fails on the code: `ISBN10 "059610183X"` succeeds, but re-parsing its
output drops the `':'` and the raw check rune during sanitization, leaving 9
digits that take the SBN path and fail its checksum, so the round trip
errors although `Parse` of the original input succeeds. -/
theorem claim_c7_roundtrip_divergence :
    ISBN10 "059610183X".data = .ok ("059610183:".data ++ [Char.ofNat 1]) ∧
    ISBN13 ("059610183:".data ++ [Char.ofNat 1]) = .error .invalidChecksum10 ∧
    ISBN13 "059610183X".data = .ok ("978059610183:".data ++ [Char.ofNat 1]) := by
  refine ⟨by decide, by decide, by decide⟩

end Isbn
